import Mathlib

/-!
# Sinowealth7 driver (`src/driver-sinowealth7.c`)

A shallow embedding of the driver's configuration report, of the host objects it
touches (device, profile, resolution, LED) and of its four operations
`sinowealth7_read_profile`, `sinowealth7_init_profile`, `sinowealth7_probe` and
`sinowealth7_commit`, followed by the properties proved about them.

Conventions.
* A `uint8_t` is a `Nat`; the driver only copies bytes and stores the constants
  `0x2` and `0xa2`, so no arithmetic can overflow.
* A C `int` return code is an `Int`.
* A pointer that C would dereference while it is `NULL` makes the embedded function
  return `none`; every other outcome is `some`.
* The HID transport is a parameter (`hid_transport`): the theorems quantify over
  everything it may answer.
-/

namespace Sinowealth7

/-! ## Constants -/

/-- The macro `SINOWEALTH7_REPORT_ID_CONFIG`, the feature report's ID. -/
def SINOWEALTH7_REPORT_ID_CONFIG : Nat := 0x4

/-- The macro `SINOWEALTH7_CONFIG_SIZE`, the feature report's size in bytes. -/
def SINOWEALTH7_CONFIG_SIZE : Nat := 0x9a

/-- Modelled from the spec: the `no-device` error number `ENODEV` of `errno.h`, which is
not part of the driver source; its Linux value is 19. -/
def ENODEV : Int := 19

/-! ## The configuration report -/

/-- The packed C `struct sinowealth7_config_report`: one field per C member, the two
arrays carrying their declared sizes. -/
structure sinowealth7_config_report where
  report_id : Nat
  unknown1 : List Nat
  led_brightness : Nat
  unknown2 : List Nat
  unknown1_size : unknown1.length = 0x5f
  unknown2_size : unknown2.length = 0x9a - 0x61
  deriving DecidableEq

namespace sinowealth7_config_report

/-- The object seen through the cast `(uint8_t*) config`: the members in declaration
order with no padding, as `__attribute__((packed))` lays them out. -/
def toBytes (c : sinowealth7_config_report) : List Nat :=
  c.report_id :: (c.unknown1 ++ c.led_brightness :: c.unknown2)

/-- The structure whose packed bytes are `l`; the inverse of `toBytes` on buffers of
`SINOWEALTH7_CONFIG_SIZE` bytes (a missing byte would read as 0). -/
def ofBytes (l : List Nat) : sinowealth7_config_report where
  report_id := l.getD 0 0
  unknown1 := (l.drop 1).takeD 0x5f 0
  led_brightness := l.getD 0x60 0
  unknown2 := (l.drop 0x61).takeD (0x9a - 0x61) 0
  unknown1_size := List.takeD_length _ _ _
  unknown2_size := List.takeD_length _ _ _

end sinowealth7_config_report

/-- The C `struct sinowealth7_data`, the driver state attached to a device. -/
structure sinowealth7_data where
  config : sinowealth7_config_report
  deriving DecidableEq

/-- The result of `zalloc(sizeof(struct sinowealth7_data))`: every byte is zero. -/
def zalloc : sinowealth7_data where
  config :=
    { report_id := 0
      unknown1 := List.replicate 0x5f 0
      led_brightness := 0
      unknown2 := List.replicate (0x9a - 0x61) 0
      unknown1_size := List.length_replicate _ _
      unknown2_size := List.length_replicate _ _ }

/-! ## Host objects

The host service's objects are declared in `libratbag-private.h`, which is not part of
the driver source. Only the members the driver touches are kept. -/

/-- Modelled from the spec: the host's four LED modes (`enum ratbag_led_mode`), of which
the driver's `switch` names all four. -/
inductive ratbag_led_mode where
  | RATBAG_LED_OFF
  | RATBAG_LED_ON
  | RATBAG_LED_CYCLE
  | RATBAG_LED_BREATHING
  deriving DecidableEq, Repr

/-- Modelled from the spec: the LED placement (`enum ratbag_led_type`); `UNKNOWN` is the
value of a freshly allocated LED. -/
inductive ratbag_led_type where
  | RATBAG_LED_TYPE_UNKNOWN
  | RATBAG_LED_TYPE_LOGO
  | RATBAG_LED_TYPE_SIDE
  deriving DecidableEq, Repr

/-- Modelled from the spec: the LED colour depth (`enum ratbag_led_colordepth`). -/
inductive ratbag_led_colordepth where
  | RATBAG_LED_COLORDEPTH_MONOCHROME
  | RATBAG_LED_COLORDEPTH_RGB_888
  | RATBAG_LED_COLORDEPTH_RGB_111
  deriving DecidableEq, Repr

/-- Modelled from the spec: the resolution capabilities
(`enum ratbag_resolution_capability`); the driver sets only this one. -/
inductive ratbag_resolution_capability where
  | RATBAG_RESOLUTION_CAP_SEPARATE_XY_RESOLUTION
  deriving DecidableEq, Repr

/-- Modelled from the spec: the host's LED object (`struct ratbag_led`): mode, brightness,
type, colour depth and the set of advertised modes. -/
structure ratbag_led where
  mode : ratbag_led_mode
  brightness : Nat
  type : ratbag_led_type
  colordepth : ratbag_led_colordepth
  modes : List ratbag_led_mode
  deriving DecidableEq

/-- Modelled from the spec: the host's resolution slot (`struct ratbag_resolution`): the
current DPI pair, the advertised DPI list and the capabilities. -/
structure ratbag_resolution where
  dpi_x : Nat
  dpi_y : Nat
  dpis : List Nat
  capabilities : List ratbag_resolution_capability
  deriving DecidableEq

/-- Modelled from the spec: the host's button object (`struct ratbag_button`); the driver
creates none and touches none. -/
structure ratbag_button where
  index : Nat
  deriving DecidableEq

/-- Modelled from the spec: the host's profile object (`struct ratbag_profile`): its
resolution slots, buttons and LEDs, the advertised report rates, the active report rate
and the active flag. -/
structure ratbag_profile where
  index : Nat
  resolutions : List ratbag_resolution
  buttons : List ratbag_button
  leds : List ratbag_led
  rates : List Nat
  hz : Nat
  is_active : Bool
  deriving DecidableEq

/-- Modelled from the spec: the host's device object (`struct ratbag_device`): the profile
table with its advertised shape, and the driver-data slot (`drv_data`), `none` being the
null pointer. -/
structure ratbag_device where
  profiles : List ratbag_profile
  num_profiles : Nat
  num_buttons : Nat
  num_leds : Nat
  drv_data : Option sinowealth7_data
  deriving DecidableEq

/-- Modelled from the spec: a freshly allocated (zeroed) LED. -/
def ratbag_led.fresh : ratbag_led where
  mode := .RATBAG_LED_OFF
  brightness := 0
  type := .RATBAG_LED_TYPE_UNKNOWN
  colordepth := .RATBAG_LED_COLORDEPTH_MONOCHROME
  modes := []

/-- Modelled from the spec: a freshly allocated (zeroed) resolution slot. -/
def ratbag_resolution.fresh : ratbag_resolution where
  dpi_x := 0
  dpi_y := 0
  dpis := []
  capabilities := []

/-- Modelled from the spec: a fresh profile with the given numbers of resolution slots,
buttons and LEDs. -/
def ratbag_create_profile (index num_resolutions num_buttons num_leds : Nat) :
    ratbag_profile where
  index := index
  resolutions := List.replicate num_resolutions ratbag_resolution.fresh
  buttons := (List.range num_buttons).map ratbag_button.mk
  leds := List.replicate num_leds ratbag_led.fresh
  rates := []
  hz := 0
  is_active := false

/-- Modelled from the spec: `ratbag_device_init_profiles`, which initialises the device's
profile table to `num_profiles` fresh profiles of the given shape and records the shape on
the device. -/
def ratbag_device_init_profiles (device : ratbag_device)
    (num_profiles num_resolutions num_buttons num_leds : Nat) : ratbag_device :=
  { device with
    profiles := (List.range num_profiles).map
      (fun i => ratbag_create_profile i num_resolutions num_buttons num_leds)
    num_profiles := num_profiles
    num_buttons := num_buttons
    num_leds := num_leds }

/-- Modelled from the spec: `ratbag_device_get_profile` ("obtain profile by index"). The
returned pointer is the profile's position in the device's table; `none` is `NULL`. -/
def ratbag_device_get_profile (device : ratbag_device) (index : Nat) : Option Nat :=
  if index < device.profiles.length then some index else none

/-- Modelled from the spec: `ratbag_profile_get_led` ("obtain LED by index"); `none` is
`NULL`. -/
def ratbag_profile_get_led (profile : ratbag_profile) (index : Nat) : Option ratbag_led :=
  profile.leds[index]?

/-- Modelled from the spec: `ratbag_resolution_set_dpi_list` ("set DPI list"): the first
`ndpis` entries of `dpis` become the slot's DPI list. -/
def ratbag_resolution_set_dpi_list (res : ratbag_resolution) (dpis : List Nat)
    (ndpis : Nat) : ratbag_resolution :=
  { res with dpis := dpis.take ndpis }

/-- Modelled from the spec: `ratbag_resolution_set_cap` ("set capability flag"). -/
def ratbag_resolution_set_cap (res : ratbag_resolution)
    (cap : ratbag_resolution_capability) : ratbag_resolution :=
  { res with capabilities := if cap ∈ res.capabilities then res.capabilities
                             else res.capabilities ++ [cap] }

/-- Modelled from the spec: `ratbag_led_set_mode_capability` ("set mode-capability
bits"). -/
def ratbag_led_set_mode_capability (led : ratbag_led) (mode : ratbag_led_mode) :
    ratbag_led :=
  { led with modes := if mode ∈ led.modes then led.modes else led.modes ++ [mode] }

/-- Modelled from the spec: `ratbag_profile_set_report_rate_list` ("set report-rate
list"): the first `nrates` entries of `rates` become the profile's list. -/
def ratbag_profile_set_report_rate_list (profile : ratbag_profile) (rates : List Nat)
    (nrates : Nat) : ratbag_profile :=
  { profile with rates := rates.take nrates }

/-- Modelled from the spec: `ratbag_profile_set_report_rate` ("set active report
rate"). -/
def ratbag_profile_set_report_rate (profile : ratbag_profile) (hz : Nat) : ratbag_profile :=
  { profile with hz := hz }

/-- Modelled from the spec: `ratbag_set_drv_data`, which stores a pointer in the device's
driver-data slot. -/
def ratbag_set_drv_data (device : ratbag_device) (drv_data : Option sinowealth7_data) :
    ratbag_device :=
  { device with drv_data := drv_data }

/-- Write `profile` through the pointer `p` into the device's profile table. -/
def ratbag_device.store_profile (device : ratbag_device) (p : Nat)
    (profile : ratbag_profile) : ratbag_device :=
  { device with profiles := device.profiles.set p profile }

/-- Write `led` through a pointer to the profile's LED number `index`. -/
def ratbag_profile.store_led (profile : ratbag_profile) (index : Nat) (led : ratbag_led) :
    ratbag_profile :=
  { profile with leds := profile.leds.set index led }

/-! ## The HID transport

The transport (`libratbag-hidraw.c`) is outside the driver. One driver operation calls
each transport function at most once, so a transport is the collection of answers it
gives during that operation. -/

/-- Modelled from the spec: the answer to `get_feature_report(device, report_id, buffer,
size) → bytes_read`. Either the transfer fails with an error number, the call returning
its negation and leaving the buffer alone, or some bytes arrive, the call copying them to
the start of the buffer and returning how many they are. -/
inductive feature_reply where
  | error (errno : Nat)
  | data (bytes : List Nat)
  deriving DecidableEq

/-- Modelled from the spec: the HID transport as the driver sees it.
* `has_report node id` is `ratbag_hidraw_has_report` on the candidate interface `node`;
* `find_hidraw test` is what `ratbag_find_hidraw` returns when given the callback `test`;
* `get_feature_report id size` is the answer to a GET_FEATURE request;
* `set_feature_report id bytes` is the count returned for a SET_FEATURE request. -/
structure hid_transport where
  has_report : Nat → Nat → Int
  find_hidraw : (Nat → Int) → Int
  get_feature_report : Nat → Nat → feature_reply
  set_feature_report : Nat → List Nat → Int

/-- The C `memcpy(dst, src, n)` into a buffer `dst`: the first `n` bytes of `src` replace
the start of `dst`. Writes past the end of `dst` are not represented. -/
def memcpy (dst src : List Nat) (n : Nat) : List Nat :=
  (src.take n).take dst.length ++ dst.drop (src.take n).length

/-- Modelled from the spec: `ratbag_hidraw_get_feature_report`, returning the count and
the buffer as the call leaves it. -/
def ratbag_hidraw_get_feature_report (hid : hid_transport) (reportnum : Nat)
    (buf : List Nat) (len : Nat) : Int × List Nat :=
  match hid.get_feature_report reportnum len with
  | .error errno => (-(errno : Int), buf)
  | .data bytes => ((bytes.length : Int), memcpy buf bytes bytes.length)

/-- A SET_FEATURE request as the transport receives it: the report ID and the `len` bytes
found at `buf`. -/
structure hid_set_request where
  reportnum : Nat
  bytes : List Nat
  deriving DecidableEq

/-- The request that `ratbag_hidraw_set_feature_report(device, reportnum, buf, len)`
hands to the transport. -/
def hid_set_request.of (reportnum : Nat) (buf : List Nat) (len : Nat) : hid_set_request where
  reportnum := reportnum
  bytes := buf.take len

/-- Modelled from the spec: `ratbag_hidraw_set_feature_report`, returning the count the
transport reports. -/
def ratbag_hidraw_set_feature_report (hid : hid_transport) (reportnum : Nat)
    (buf : List Nat) (len : Nat) : Int :=
  hid.set_feature_report reportnum (buf.take len)

/-- Modelled from the spec: `ratbag_find_hidraw(device, match)`. -/
def ratbag_find_hidraw (hid : hid_transport) (test : Nat → Int) : Int :=
  hid.find_hidraw test

/-! ## The driver -/

open ratbag_led_mode ratbag_led_type ratbag_led_colordepth ratbag_resolution_capability

/-- The driver's `sinowealth7_read_profile(profile)`. The pointer `profile` is a position
in the table of `device` (the C code reaches the device through `profile->device`). The
result is the return code and the device as the call leaves it. -/
def sinowealth7_read_profile (hid : hid_transport) (device : ratbag_device) (profile : Nat) :
    Option (Int × ratbag_device) := do
  let p ← device.profiles[profile]?
  let drv_data ← device.drv_data
  let config := drv_data.config
  let hz := 1000
  let (rc, raw) := ratbag_hidraw_get_feature_report hid SINOWEALTH7_REPORT_ID_CONFIG
    config.toBytes SINOWEALTH7_CONFIG_SIZE
  let config := sinowealth7_config_report.ofBytes raw
  let device := { device with drv_data := some { drv_data with config := config } }
  if rc ≠ SINOWEALTH7_CONFIG_SIZE then
    -- log_error: "Could not read device configuration"
    return (-1, device)
  -- log_buffer: "CONFIG"
  /- Body lighting -/
  let led ← ratbag_profile_get_led p 0
  let led := { led with mode := RATBAG_LED_ON }
  let led := { led with brightness := config.led_brightness }
  let p := p.store_led 0 led
  let p := ratbag_profile_set_report_rate_list p [hz] 1
  let p := ratbag_profile_set_report_rate p hz
  let p := { p with is_active := true }
  return (0, device.store_profile profile p)

/-- The driver's `sinowealth7_init_profile(device)`. -/
def sinowealth7_init_profile (device : ratbag_device) : Option ratbag_device := do
  let num_dpis := 2
  let device := ratbag_device_init_profiles device 1 1 0 1
  let profile ← ratbag_device_get_profile device 0
  let p ← device.profiles[profile]?
  /- Generate DPI list: dpis[0] = 0 (0 DPI = disabled), dpis[1] = 1200 -/
  let dpis := [0, 1200]
  let p := { p with resolutions := p.resolutions.map (fun resolution =>
    ratbag_resolution_set_cap (ratbag_resolution_set_dpi_list resolution dpis num_dpis)
      RATBAG_RESOLUTION_CAP_SEPARATE_XY_RESOLUTION) }
  /- Set up LED capabilities -/
  let led ← ratbag_profile_get_led p 0
  let led := { led with type := RATBAG_LED_TYPE_SIDE }
  let led := { led with colordepth := RATBAG_LED_COLORDEPTH_MONOCHROME }
  let led := ratbag_led_set_mode_capability led RATBAG_LED_OFF
  let led := ratbag_led_set_mode_capability led RATBAG_LED_ON
  let p := p.store_led 0 led
  return device.store_profile profile p

/-- The driver's `sinowealth7_test_hidraw(device)`, on the candidate interface `node`. -/
def sinowealth7_test_hidraw (hid : hid_transport) (node : Nat) : Int :=
  hid.has_report node SINOWEALTH7_REPORT_ID_CONFIG

/-- The driver's `sinowealth7_probe(device)`: the return code and the device as the call
leaves it. -/
def sinowealth7_probe (hid : hid_transport) (device : ratbag_device) :
    Option (Int × ratbag_device) := do
  let rc := ratbag_find_hidraw hid (sinowealth7_test_hidraw hid)
  if rc ≠ 0 then
    -- err: free(drv_data) with drv_data still 0
    return (rc, ratbag_set_drv_data device none)
  let drv_data := zalloc
  let device := ratbag_set_drv_data device (some drv_data)
  let device ← sinowealth7_init_profile device
  let profile ← ratbag_device_get_profile device 0
  let (rc, device) ← sinowealth7_read_profile hid device profile
  if rc ≠ 0 then
    -- rc = -ENODEV; err: free(drv_data)
    return (-ENODEV, ratbag_set_drv_data device none)
  return (0, device)

/-- What one call of `sinowealth7_commit` does: its return code, the device as the call
leaves it, and the request it handed to the transport. -/
structure commit_outcome where
  rc : Int
  device : ratbag_device
  request : hid_set_request
  deriving DecidableEq

/-- The driver's `sinowealth7_commit(device)`. -/
def sinowealth7_commit (hid : hid_transport) (device : ratbag_device) :
    Option commit_outcome := do
  let profile ← ratbag_device_get_profile device 0
  let p ← device.profiles[profile]?
  let drv_data ← device.drv_data
  let config := drv_data.config
  let led ← ratbag_profile_get_led p 0
  let config :=
    match led.mode with
    | RATBAG_LED_OFF => { config with led_brightness := 0x2 }
    | RATBAG_LED_ON => { config with led_brightness := 0xa2 }
    | RATBAG_LED_CYCLE => config
    | RATBAG_LED_BREATHING => config
  let device := { device with drv_data := some { drv_data with config := config } }
  let request := hid_set_request.of SINOWEALTH7_REPORT_ID_CONFIG config.toBytes
    SINOWEALTH7_CONFIG_SIZE
  let rc := ratbag_hidraw_set_feature_report hid SINOWEALTH7_REPORT_ID_CONFIG
    config.toBytes SINOWEALTH7_CONFIG_SIZE
  if rc ≠ SINOWEALTH7_CONFIG_SIZE then
    -- log_error: "Error while writing config"
    return { rc := -1, device := device, request := request }
  return { rc := 0, device := device, request := request }

/-! ## Derived notions used in the statements -/

/-- The count that `ratbag_hidraw_get_feature_report` returns for a reply: the number of
bytes that arrived, or the negated error number. -/
def feature_reply.count : feature_reply → Int
  | .error errno => -(errno : Int)
  | .data bytes => (bytes.length : Int)

/-- The LED that `sinowealth7_init_profile` publishes. -/
def initial_led : ratbag_led where
  mode := RATBAG_LED_OFF
  brightness := 0
  type := RATBAG_LED_TYPE_SIDE
  colordepth := RATBAG_LED_COLORDEPTH_MONOCHROME
  modes := [RATBAG_LED_OFF, RATBAG_LED_ON]

/-- The profile that `sinowealth7_init_profile` publishes. -/
def initial_profile : ratbag_profile where
  index := 0
  resolutions := [{ dpi_x := 0, dpi_y := 0, dpis := [0, 1200],
                    capabilities := [RATBAG_RESOLUTION_CAP_SEPARATE_XY_RESOLUTION] }]
  buttons := []
  leds := [initial_led]
  rates := []
  hz := 0
  is_active := false

/-! ## Concrete inputs -/

/-- A 154-byte report whose first byte is `first` and whose byte `0x60` is `led`. -/
def sample_report (first led : Nat) : List Nat :=
  first :: (List.replicate 0x5f 0x11 ++ led :: List.replicate (0x9a - 0x61) 0x22)

/-- A transport with the given answers, whatever it is asked. -/
def sample_transport (find_rc : Int) (reply : feature_reply) (set_rc : Int) :
    hid_transport where
  has_report := fun _ _ => 1
  find_hidraw := fun _ => find_rc
  get_feature_report := fun _ _ => reply
  set_feature_report := fun _ _ => set_rc

/-- A LED of the driver's shape in the given mode. -/
def sample_led (mode : ratbag_led_mode) : ratbag_led where
  mode := mode
  brightness := 0xa2
  type := RATBAG_LED_TYPE_SIDE
  colordepth := RATBAG_LED_COLORDEPTH_MONOCHROME
  modes := [RATBAG_LED_OFF, RATBAG_LED_ON]

/-- A profile of the driver's shape whose LED is in the given mode. -/
def sample_profile (mode : ratbag_led_mode) : ratbag_profile :=
  { initial_profile with leds := [sample_led mode], rates := [1000], hz := 1000,
                         is_active := true }

/-- Driver state holding `sample_report 0x04 0xa2`. -/
def sample_data : sinowealth7_data where
  config := sinowealth7_config_report.ofBytes (sample_report 0x04 0xa2)

/-- A device in the active state: one profile, its LED in the given mode, and
`sample_data` attached. -/
def sample_device (mode : ratbag_led_mode) : ratbag_device where
  profiles := [sample_profile mode]
  num_profiles := 1
  num_buttons := 0
  num_leds := 1
  drv_data := some sample_data

/-- A device before probe: no profile, nothing attached. -/
def fresh_device : ratbag_device where
  profiles := []
  num_profiles := 0
  num_buttons := 0
  num_leds := 0
  drv_data := none

/-! ## Layout lemmas -/

theorem cons_append_cons_length (a x : Nat) (u v : List Nat) (n m : Nat)
    (hu : u.length = n) (hv : v.length = m) :
    (a :: (u ++ x :: v)).length = 1 + n + 1 + m := by
  simp [hu, hv]; omega

theorem cons_append_cons_get (a x : Nat) (u v : List Nat) (n : Nat) (hu : u.length = n) :
    (a :: (u ++ x :: v))[n + 1]? = some x := by
  subst hu
  rw [List.getElem?_cons_succ, List.getElem?_append_right (Nat.le_refl _), Nat.sub_self,
    List.getElem?_cons_zero]

theorem cons_append_cons_set (a x y : Nat) (u v : List Nat) (n : Nat) (hu : u.length = n) :
    (a :: (u ++ x :: v)).set (n + 1) y = a :: (u ++ y :: v) := by
  subst hu
  simp

theorem cons_split (l : List Nat) (n m : Nat) (h : l.length = 1 + n + 1 + m) :
    l.getD 0 0 :: ((l.drop 1).takeD n 0 ++ l.getD (n + 1) 0 :: (l.drop (n + 2)).takeD m 0)
      = l := by
  cases l with
  | nil => simp at h; omega
  | cons a t =>
    have ht : t.length = n + 1 + m := by simp at h; omega
    have hn : n < t.length := by omega
    have h1 : t.takeD n 0 = t.take n := List.takeD_eq_take 0 (by omega)
    have h2 : (t.drop (n + 1)).takeD m 0 = t.drop (n + 1) := by
      rw [List.takeD_eq_take 0 (by simp; omega)]
      exact List.take_of_length_le (by simp; omega)
    have h3 : t.getD n 0 = t[n] := by simp [List.getD_eq_getElem?_getD, hn]
    simp only [List.getD_cons_zero, List.drop_succ_cons, List.drop_zero, List.getD_cons_succ,
      h1, h2, h3]
    congr 1
    rw [← List.drop_eq_getElem_cons hn, List.take_append_drop]

theorem memcpy_length (dst src : List Nat) (n : Nat) : (memcpy dst src n).length = dst.length := by
  simp [memcpy]; omega

theorem memcpy_full (dst src : List Nat) (h : src.length = dst.length) :
    memcpy dst src src.length = src := by
  simp [memcpy, ← h]

namespace sinowealth7_config_report

/-- The `_Static_assert` of the source: the packed structure has `SINOWEALTH7_CONFIG_SIZE`
bytes. -/
theorem toBytes_length (c : sinowealth7_config_report) :
    c.toBytes.length = SINOWEALTH7_CONFIG_SIZE :=
  cons_append_cons_length _ _ _ _ _ _ c.unknown1_size c.unknown2_size

/-- The member `led_brightness` is the byte at offset `0x60`. -/
theorem toBytes_led_brightness (c : sinowealth7_config_report) :
    c.toBytes[0x60]? = some c.led_brightness :=
  cons_append_cons_get _ _ _ _ _ c.unknown1_size

/-- Assigning to `led_brightness` changes the byte at offset `0x60` and no other. -/
theorem toBytes_set_led_brightness (c : sinowealth7_config_report) (v : Nat) :
    ({ c with led_brightness := v } : sinowealth7_config_report).toBytes
      = c.toBytes.set 0x60 v :=
  (cons_append_cons_set _ _ _ _ _ _ c.unknown1_size).symm

/-- A buffer of `SINOWEALTH7_CONFIG_SIZE` bytes is the packed form of the structure read
from it. -/
theorem toBytes_ofBytes (l : List Nat) (h : l.length = SINOWEALTH7_CONFIG_SIZE) :
    (ofBytes l).toBytes = l :=
  cons_split l 0x5f (0x9a - 0x61) h

end sinowealth7_config_report
/-! ## The operations on an active device -/

theorem get_profile_zero (device : ratbag_device) (p : ratbag_profile)
    (hp : device.profiles[0]? = some p) : ratbag_device_get_profile device 0 = some 0 := by
  have h : 0 < device.profiles.length := by
    rcases hl : device.profiles with _ | ⟨a, t⟩
    · simp [hl] at hp
    · simp
  simp [ratbag_device_get_profile, h]

/-- The byte image that `sinowealth7_commit` leaves in the stored report, by LED mode. -/
theorem commit_unfold (hid : hid_transport) (device : ratbag_device) (p : ratbag_profile)
    (d : sinowealth7_data) (led : ratbag_led)
    (hp : device.profiles[0]? = some p) (hd : device.drv_data = some d)
    (hl : p.leds[0]? = some led) :
    ∃ out, sinowealth7_commit hid device = some out ∧
      out.request.reportnum = SINOWEALTH7_REPORT_ID_CONFIG ∧
      out.rc = (if hid.set_feature_report out.request.reportnum out.request.bytes
                  = SINOWEALTH7_CONFIG_SIZE then 0 else -1) ∧
      out.device.profiles = device.profiles ∧
      ∃ d', out.device.drv_data = some d' ∧ out.request.bytes = d'.config.toBytes ∧
        d'.config.toBytes =
          (match led.mode with
            | RATBAG_LED_OFF => d.config.toBytes.set 0x60 0x2
            | RATBAG_LED_ON => d.config.toBytes.set 0x60 0xa2
            | RATBAG_LED_CYCLE => d.config.toBytes
            | RATBAG_LED_BREATHING => d.config.toBytes) ∧
        (led.mode = RATBAG_LED_CYCLE ∨ led.mode = RATBAG_LED_BREATHING → d' = d) := by
  have htake : ∀ c : sinowealth7_config_report,
      c.toBytes.take SINOWEALTH7_CONFIG_SIZE = c.toBytes := fun c =>
    List.take_of_length_le (le_of_eq c.toBytes_length)
  simp only [sinowealth7_commit, get_profile_zero device p hp, hp, hd, hl,
    ratbag_profile_get_led, Option.bind_eq_bind, Option.some_bind, Option.pure_def,
    ratbag_hidraw_set_feature_report, hid_set_request.of, htake]
  cases hm : led.mode <;>
    simp [hm, htake, sinowealth7_config_report.toBytes_set_led_brightness] <;>
    split <;> simp_all <;>
    exact ⟨(sinowealth7_config_report.toBytes_set_led_brightness _ _).symm,
      sinowealth7_config_report.toBytes_set_led_brightness _ _⟩

theorem init_profile_unfold (device : ratbag_device) :
    sinowealth7_init_profile device =
      some { profiles := [initial_profile], num_profiles := 1, num_buttons := 0,
             num_leds := 1, drv_data := device.drv_data } := by
  rfl

theorem read_profile_ok (hid : hid_transport) (device : ratbag_device) (profile : Nat)
    (p : ratbag_profile) (d : sinowealth7_data) (led : ratbag_led) (bytes : List Nat)
    (hp : device.profiles[profile]? = some p) (hd : device.drv_data = some d)
    (hl : p.leds[0]? = some led)
    (hr : hid.get_feature_report SINOWEALTH7_REPORT_ID_CONFIG SINOWEALTH7_CONFIG_SIZE
      = .data bytes)
    (hlen : bytes.length = SINOWEALTH7_CONFIG_SIZE) :
    sinowealth7_read_profile hid device profile =
      some (0,
        { device with
          drv_data := some { config := sinowealth7_config_report.ofBytes bytes }
          profiles := device.profiles.set profile
            { p with
              leds := p.leds.set 0 { led with mode := RATBAG_LED_ON,
                                              brightness := bytes.getD 0x60 0 }
              rates := [1000]
              hz := 1000
              is_active := true } }) := by
  have hm : memcpy d.config.toBytes bytes SINOWEALTH7_CONFIG_SIZE = bytes := by
    rw [← hlen]
    exact memcpy_full _ _ (by rw [hlen, d.config.toBytes_length])
  simp only [sinowealth7_read_profile, hp, hd, hl, hr, hm, hlen,
    ratbag_hidraw_get_feature_report, ratbag_profile_get_led, Option.bind_eq_bind,
    Option.some_bind, Option.pure_def, ne_eq, not_true_eq_false, if_false]
  rfl

theorem read_profile_fail (hid : hid_transport) (device : ratbag_device) (profile : Nat)
    (p : ratbag_profile) (d : sinowealth7_data)
    (hp : device.profiles[profile]? = some p) (hd : device.drv_data = some d)
    (hrc : (ratbag_hidraw_get_feature_report hid SINOWEALTH7_REPORT_ID_CONFIG
      d.config.toBytes SINOWEALTH7_CONFIG_SIZE).1 ≠ SINOWEALTH7_CONFIG_SIZE) :
    ∃ d', sinowealth7_read_profile hid device profile =
      some (-1, { device with drv_data := some d' }) := by
  simp only [sinowealth7_read_profile, hp, hd, Option.bind_eq_bind,
    Option.some_bind, Option.pure_def, ne_eq]
  rw [if_pos hrc]
  exact ⟨_, rfl⟩

theorem get_feature_report_count (hid : hid_transport) (reportnum len : Nat)
    (buf : List Nat) :
    (ratbag_hidraw_get_feature_report hid reportnum buf len).1
      = (hid.get_feature_report reportnum len).count := by
  unfold ratbag_hidraw_get_feature_report
  cases hid.get_feature_report reportnum len <;> rfl

theorem count_eq_size_iff (reply : feature_reply) :
    reply.count = (SINOWEALTH7_CONFIG_SIZE : Int) ↔
      ∃ bytes, reply = .data bytes ∧ bytes.length = SINOWEALTH7_CONFIG_SIZE := by
  cases reply with
  | error errno =>
    simp only [feature_reply.count, reduceCtorEq, false_and, exists_false, iff_false,
      SINOWEALTH7_CONFIG_SIZE]
    omega
  | data bytes =>
    simp [feature_reply.count]

theorem getElem?_eq_some_getD (l : List Nat) (i : Nat) (h : i < l.length) :
    l[i]? = some (l.getD i 0) := by
  simp [List.getD_eq_getElem?_getD, h]

theorem set_eq_self_iff (l : List Nat) (i a : Nat) (h : i < l.length) :
    l.set i a = l ↔ l[i]? = some a := by
  constructor
  · intro e
    rw [← e, List.getElem?_set_self h]
  · intro e
    apply List.ext_getElem?
    intro j
    by_cases hj : i = j
    · subst hj
      rw [List.getElem?_set_self h, e]
    · rw [List.getElem?_set_ne hj]

theorem probe_no_hidraw (hid : hid_transport) (device : ratbag_device)
    (h : ratbag_find_hidraw hid (sinowealth7_test_hidraw hid) ≠ 0) :
    sinowealth7_probe hid device =
      some (ratbag_find_hidraw hid (sinowealth7_test_hidraw hid),
        { device with drv_data := none }) := by
  simp only [sinowealth7_probe, Option.bind_eq_bind, Option.pure_def, ne_eq]
  rw [if_pos h]
  rfl

theorem probe_read_ok (hid : hid_transport) (device : ratbag_device) (bytes : List Nat)
    (h : ratbag_find_hidraw hid (sinowealth7_test_hidraw hid) = 0)
    (hr : hid.get_feature_report SINOWEALTH7_REPORT_ID_CONFIG SINOWEALTH7_CONFIG_SIZE
      = .data bytes)
    (hlen : bytes.length = SINOWEALTH7_CONFIG_SIZE) :
    sinowealth7_probe hid device =
      some (0,
        { profiles := [{ initial_profile with
                         leds := [{ initial_led with mode := RATBAG_LED_ON,
                                                     brightness := bytes.getD 0x60 0 }]
                         rates := [1000]
                         hz := 1000
                         is_active := true }]
          num_profiles := 1
          num_buttons := 0
          num_leds := 1
          drv_data := some { config := sinowealth7_config_report.ofBytes bytes } }) := by
  simp only [sinowealth7_probe, Option.bind_eq_bind, Option.pure_def, ne_eq, h,
    not_true_eq_false, if_false, init_profile_unfold, Option.some_bind]
  have hg : ratbag_device_get_profile
      { profiles := [initial_profile], num_profiles := 1, num_buttons := 0, num_leds := 1,
        drv_data := (ratbag_set_drv_data device (some zalloc)).drv_data } 0 = some 0 := rfl
  rw [hg, Option.some_bind,
    read_profile_ok hid
      { profiles := [initial_profile], num_profiles := 1, num_buttons := 0, num_leds := 1,
        drv_data := (ratbag_set_drv_data device (some zalloc)).drv_data }
      0 initial_profile zalloc initial_led bytes rfl rfl rfl hr hlen]
  rfl

theorem probe_read_fail (hid : hid_transport) (device : ratbag_device)
    (h : ratbag_find_hidraw hid (sinowealth7_test_hidraw hid) = 0)
    (hrc : (hid.get_feature_report SINOWEALTH7_REPORT_ID_CONFIG
      SINOWEALTH7_CONFIG_SIZE).count ≠ SINOWEALTH7_CONFIG_SIZE) :
    sinowealth7_probe hid device =
      some (-ENODEV,
        { profiles := [initial_profile], num_profiles := 1, num_buttons := 0,
          num_leds := 1, drv_data := none }) := by
  simp only [sinowealth7_probe, Option.bind_eq_bind, Option.pure_def, ne_eq, h,
    not_true_eq_false, if_false, init_profile_unfold, Option.some_bind]
  have hg : ratbag_device_get_profile
      { profiles := [initial_profile], num_profiles := 1, num_buttons := 0, num_leds := 1,
        drv_data := (ratbag_set_drv_data device (some zalloc)).drv_data } 0 = some 0 := rfl
  obtain ⟨d', hd'⟩ := read_profile_fail hid
    { profiles := [initial_profile], num_profiles := 1, num_buttons := 0, num_leds := 1,
      drv_data := (ratbag_set_drv_data device (some zalloc)).drv_data } 0 initial_profile
    zalloc rfl rfl (by rw [get_feature_report_count]; exact hrc)
  rw [hg, Option.some_bind, hd']
  rfl

theorem config_size_cast : ((SINOWEALTH7_CONFIG_SIZE : Nat) : Int) = 154 := rfl

/-! ## Commit -/

/-- C1: for every stored report and every LED mode in {off, on}, `sinowealth7_commit`
hands the transport a SET_FEATURE request with report ID 0x04 whose 154 bytes equal the
stored bytes at every offset other than 0x60, byte 0x60 being 0x02 when the mode is off
and 0xA2 when it is on. -/
theorem commit_off_on_frame (hid : hid_transport) (device : ratbag_device)
    (p : ratbag_profile) (d : sinowealth7_data) (led : ratbag_led)
    (hp : device.profiles[0]? = some p) (hd : device.drv_data = some d)
    (hl : p.leds[0]? = some led)
    (hm : led.mode = RATBAG_LED_OFF ∨ led.mode = RATBAG_LED_ON) :
    ∃ out, sinowealth7_commit hid device = some out ∧
      out.request.reportnum = 0x04 ∧
      out.request.bytes.length = 154 ∧
      (∀ i, i ≠ 0x60 → out.request.bytes[i]? = d.config.toBytes[i]?) ∧
      (led.mode = RATBAG_LED_OFF → out.request.bytes[0x60]? = some 0x02) ∧
      (led.mode = RATBAG_LED_ON → out.request.bytes[0x60]? = some 0xA2) := by
  obtain ⟨out, ho, hn, -, -, d', -, hb, hc, -⟩ := commit_unfold hid device p d led hp hd hl
  have h60 : 0x60 < d.config.toBytes.length := by
    rw [d.config.toBytes_length]; decide
  refine ⟨out, ho, hn, ?_, ?_, ?_, ?_⟩
  · rw [hb, d'.config.toBytes_length]; rfl
  · intro i hi
    rw [hb, hc]
    rcases hm with hm | hm <;> rw [hm] <;> exact List.getElem?_set_ne (Ne.symm hi)
  · intro hm'
    rw [hb, hc, hm']
    exact List.getElem?_set_self h60
  · intro hm'
    rw [hb, hc, hm']
    exact List.getElem?_set_self h60

/-- C3: `sinowealth7_commit` returns 0 if and only if the transport reports exactly 154
bytes written; for every other count it returns -1. -/
theorem commit_rc_iff_full_write (hid : hid_transport) (device : ratbag_device)
    (p : ratbag_profile) (d : sinowealth7_data) (led : ratbag_led)
    (hp : device.profiles[0]? = some p) (hd : device.drv_data = some d)
    (hl : p.leds[0]? = some led) :
    ∃ out, sinowealth7_commit hid device = some out ∧
      (out.rc = 0 ↔
        hid.set_feature_report out.request.reportnum out.request.bytes = 154) ∧
      (hid.set_feature_report out.request.reportnum out.request.bytes ≠ 154 →
        out.rc = -1) := by
  obtain ⟨out, ho, -, hrc, -⟩ := commit_unfold hid device p d led hp hd hl
  rw [config_size_cast] at hrc
  refine ⟨out, ho, ?_, ?_⟩
  · rw [hrc]
    constructor
    · intro h
      by_contra hne
      rw [if_neg hne] at h
      exact absurd h (by decide)
    · intro h
      exact if_pos h
  · intro hne
    rw [hrc]
    exact if_neg hne

/-- C7: when the LED mode at commit time is cycle or breathing, `sinowealth7_commit`
leaves the stored report as it is, hands the transport exactly its 154 bytes, and returns
0 when the transport reports 154 bytes written. -/
theorem commit_cycle_breathing_unchanged (hid : hid_transport) (device : ratbag_device)
    (p : ratbag_profile) (d : sinowealth7_data) (led : ratbag_led)
    (hp : device.profiles[0]? = some p) (hd : device.drv_data = some d)
    (hl : p.leds[0]? = some led)
    (hm : led.mode = RATBAG_LED_CYCLE ∨ led.mode = RATBAG_LED_BREATHING) :
    ∃ out, sinowealth7_commit hid device = some out ∧
      out.device.drv_data = some d ∧
      out.request.reportnum = 0x04 ∧
      out.request.bytes.length = 154 ∧
      out.request.bytes = d.config.toBytes ∧
      (hid.set_feature_report out.request.reportnum out.request.bytes = 154 →
        out.rc = 0) := by
  obtain ⟨out, ho, hn, hrc, -, d', hd', hb, -, hsame⟩ :=
    commit_unfold hid device p d led hp hd hl
  have hdd : d' = d := hsame hm
  rw [config_size_cast] at hrc
  subst hdd
  refine ⟨out, ho, hd', hn, ?_, hb, ?_⟩
  · rw [hb, d'.config.toBytes_length]; rfl
  · intro h
    rw [hrc]
    exact if_pos h

/-- Witness for C1: the device with LED off and a transport that accepts the write. -/
theorem commit_off_on_frame_witness :
    (sample_device RATBAG_LED_OFF).profiles[0]? = some (sample_profile RATBAG_LED_OFF) ∧
    (sample_device RATBAG_LED_OFF).drv_data = some sample_data ∧
    (sample_profile RATBAG_LED_OFF).leds[0]? = some (sample_led RATBAG_LED_OFF) ∧
    ((sample_led RATBAG_LED_OFF).mode = RATBAG_LED_OFF ∨
      (sample_led RATBAG_LED_OFF).mode = RATBAG_LED_ON) ∧
    ∃ out, sinowealth7_commit (sample_transport 0 (.error 0) 154)
        (sample_device RATBAG_LED_OFF) = some out ∧
      out.request.reportnum = 0x04 ∧
      out.request.bytes.length = 154 ∧
      (∀ i, i ≠ 0x60 → out.request.bytes[i]? = sample_data.config.toBytes[i]?) ∧
      ((sample_led RATBAG_LED_OFF).mode = RATBAG_LED_OFF →
        out.request.bytes[0x60]? = some 0x02) ∧
      ((sample_led RATBAG_LED_OFF).mode = RATBAG_LED_ON →
        out.request.bytes[0x60]? = some 0xA2) :=
  ⟨rfl, rfl, rfl, Or.inl rfl,
    commit_off_on_frame (sample_transport 0 (.error 0) 154) (sample_device RATBAG_LED_OFF)
      (sample_profile RATBAG_LED_OFF) sample_data (sample_led RATBAG_LED_OFF)
      rfl rfl rfl (Or.inl rfl)⟩

/-- Witness for C3: the device with LED on and a transport that reports 100 bytes
written. -/
theorem commit_rc_iff_full_write_witness :
    (sample_device RATBAG_LED_ON).profiles[0]? = some (sample_profile RATBAG_LED_ON) ∧
    (sample_device RATBAG_LED_ON).drv_data = some sample_data ∧
    (sample_profile RATBAG_LED_ON).leds[0]? = some (sample_led RATBAG_LED_ON) ∧
    ∃ out, sinowealth7_commit (sample_transport 0 (.error 0) 100)
        (sample_device RATBAG_LED_ON) = some out ∧
      (out.rc = 0 ↔
        (sample_transport 0 (.error 0) 100).set_feature_report out.request.reportnum
          out.request.bytes = 154) ∧
      ((sample_transport 0 (.error 0) 100).set_feature_report out.request.reportnum
          out.request.bytes ≠ 154 → out.rc = -1) :=
  ⟨rfl, rfl, rfl,
    commit_rc_iff_full_write (sample_transport 0 (.error 0) 100)
      (sample_device RATBAG_LED_ON) (sample_profile RATBAG_LED_ON) sample_data
      (sample_led RATBAG_LED_ON) rfl rfl rfl⟩

/-- Witness for C7: the device with LED breathing and a transport that accepts the
write. -/
theorem commit_cycle_breathing_unchanged_witness :
    (sample_device RATBAG_LED_BREATHING).profiles[0]?
      = some (sample_profile RATBAG_LED_BREATHING) ∧
    (sample_device RATBAG_LED_BREATHING).drv_data = some sample_data ∧
    (sample_profile RATBAG_LED_BREATHING).leds[0]?
      = some (sample_led RATBAG_LED_BREATHING) ∧
    ((sample_led RATBAG_LED_BREATHING).mode = RATBAG_LED_CYCLE ∨
      (sample_led RATBAG_LED_BREATHING).mode = RATBAG_LED_BREATHING) ∧
    ∃ out, sinowealth7_commit (sample_transport 0 (.error 0) 154)
        (sample_device RATBAG_LED_BREATHING) = some out ∧
      out.device.drv_data = some sample_data ∧
      out.request.reportnum = 0x04 ∧
      out.request.bytes.length = 154 ∧
      out.request.bytes = sample_data.config.toBytes ∧
      ((sample_transport 0 (.error 0) 154).set_feature_report out.request.reportnum
          out.request.bytes = 154 → out.rc = 0) :=
  ⟨rfl, rfl, rfl, Or.inr rfl,
    commit_cycle_breathing_unchanged (sample_transport 0 (.error 0) 154)
      (sample_device RATBAG_LED_BREATHING) (sample_profile RATBAG_LED_BREATHING)
      sample_data (sample_led RATBAG_LED_BREATHING) rfl rfl rfl (Or.inr rfl)⟩

/-! ## Read -/

/-- C2: when the transport returns exactly 154 bytes, `sinowealth7_read_profile` returns
0, stores those bytes as the report, sets the LED's brightness to byte 0x60 of the
buffer (the `led_brightness` member, at offset 0x60 of the 154-byte layout), sets the
LED's mode to on, and marks the profile active. -/
theorem read_profile_success (hid : hid_transport) (device : ratbag_device)
    (profile : Nat) (p : ratbag_profile) (d : sinowealth7_data) (led : ratbag_led)
    (bytes : List Nat)
    (hp : device.profiles[profile]? = some p) (hd : device.drv_data = some d)
    (hl : p.leds[0]? = some led)
    (hr : hid.get_feature_report 0x04 154 = .data bytes)
    (hlen : bytes.length = 154) :
    ∃ device' p' led' d', sinowealth7_read_profile hid device profile = some (0, device') ∧
      device'.profiles[profile]? = some p' ∧
      ratbag_profile_get_led p' 0 = some led' ∧
      device'.drv_data = some d' ∧
      d'.config.toBytes = bytes ∧
      d'.config.toBytes.length = 154 ∧
      d'.config.toBytes[0x60]? = some d'.config.led_brightness ∧
      led'.brightness = d'.config.led_brightness ∧
      bytes[0x60]? = some led'.brightness ∧
      led'.mode = RATBAG_LED_ON ∧
      p'.is_active = true := by
  have hpl : profile < device.profiles.length := by
    by_contra hge
    rw [List.getElem?_eq_none (Nat.le_of_not_lt hge)] at hp
    exact absurd hp (by simp)
  have hll : 0 < p.leds.length := by
    by_contra hge
    rw [List.getElem?_eq_none (Nat.le_of_not_lt hge)] at hl
    exact absurd hl (by simp)
  refine ⟨_, _, _, _, read_profile_ok hid device profile p d led bytes hp hd hl hr hlen,
    List.getElem?_set_self hpl, List.getElem?_set_self hll, rfl,
    sinowealth7_config_report.toBytes_ofBytes bytes hlen,
    sinowealth7_config_report.toBytes_length _,
    sinowealth7_config_report.toBytes_led_brightness _, rfl, ?_, rfl, rfl⟩
  exact getElem?_eq_some_getD bytes 0x60 (by rw [hlen]; decide)

/-- Witness for C2: the transport delivers a 154-byte report whose byte 0x60 is 0x02. -/
theorem read_profile_success_witness :
    (sample_device RATBAG_LED_OFF).profiles[0]? = some (sample_profile RATBAG_LED_OFF) ∧
    (sample_device RATBAG_LED_OFF).drv_data = some sample_data ∧
    (sample_profile RATBAG_LED_OFF).leds[0]? = some (sample_led RATBAG_LED_OFF) ∧
    (sample_transport 0 (.data (sample_report 0x04 0x02)) 154).get_feature_report 0x04 154
      = .data (sample_report 0x04 0x02) ∧
    (sample_report 0x04 0x02).length = 154 ∧
    ∃ device' p' led' d',
      sinowealth7_read_profile (sample_transport 0 (.data (sample_report 0x04 0x02)) 154)
        (sample_device RATBAG_LED_OFF) 0 = some (0, device') ∧
      device'.profiles[0]? = some p' ∧
      ratbag_profile_get_led p' 0 = some led' ∧
      device'.drv_data = some d' ∧
      d'.config.toBytes = sample_report 0x04 0x02 ∧
      d'.config.toBytes.length = 154 ∧
      d'.config.toBytes[0x60]? = some d'.config.led_brightness ∧
      led'.brightness = d'.config.led_brightness ∧
      (sample_report 0x04 0x02)[0x60]? = some led'.brightness ∧
      led'.mode = RATBAG_LED_ON ∧
      p'.is_active = true :=
  ⟨rfl, rfl, rfl, rfl, rfl,
    read_profile_success (sample_transport 0 (.data (sample_report 0x04 0x02)) 154)
      (sample_device RATBAG_LED_OFF) 0 (sample_profile RATBAG_LED_OFF) sample_data
      (sample_led RATBAG_LED_OFF) (sample_report 0x04 0x02) rfl rfl rfl rfl rfl⟩

/-- C8: when the transport returns a count other than 154 (short, over-long or a negative
error), `sinowealth7_read_profile` returns -1 and the host's profile objects are as they
were: LED mode and brightness, report-rate list, active report rate and active flag. -/
theorem read_profile_failure_publishes_nothing (hid : hid_transport)
    (device : ratbag_device) (profile : Nat) (p : ratbag_profile) (d : sinowealth7_data)
    (hp : device.profiles[profile]? = some p) (hd : device.drv_data = some d)
    (hrc : (hid.get_feature_report 0x04 154).count ≠ 154) :
    ∃ device' p', sinowealth7_read_profile hid device profile = some (-1, device') ∧
      device'.profiles = device.profiles ∧
      device'.profiles[profile]? = some p' ∧
      p'.leds = p.leds ∧
      p'.rates = p.rates ∧
      p'.hz = p.hz ∧
      p'.is_active = p.is_active := by
  obtain ⟨d', h⟩ := read_profile_fail hid device profile p d hp hd
    (by rw [get_feature_report_count]; exact hrc)
  exact ⟨_, p, h, rfl, hp, rfl, rfl, rfl, rfl⟩

/-- Witness for C8: the transport delivers 64 bytes. -/
theorem read_profile_failure_publishes_nothing_witness :
    (sample_device RATBAG_LED_OFF).profiles[0]? = some (sample_profile RATBAG_LED_OFF) ∧
    (sample_device RATBAG_LED_OFF).drv_data = some sample_data ∧
    ((sample_transport 0 (.data (List.replicate 64 0x04)) 154).get_feature_report
      0x04 154).count ≠ 154 ∧
    ∃ device' p',
      sinowealth7_read_profile (sample_transport 0 (.data (List.replicate 64 0x04)) 154)
        (sample_device RATBAG_LED_OFF) 0 = some (-1, device') ∧
      device'.profiles = (sample_device RATBAG_LED_OFF).profiles ∧
      device'.profiles[0]? = some p' ∧
      p'.leds = (sample_profile RATBAG_LED_OFF).leds ∧
      p'.rates = (sample_profile RATBAG_LED_OFF).rates ∧
      p'.hz = (sample_profile RATBAG_LED_OFF).hz ∧
      p'.is_active = (sample_profile RATBAG_LED_OFF).is_active :=
  ⟨rfl, rfl, by decide,
    read_profile_failure_publishes_nothing
      (sample_transport 0 (.data (List.replicate 64 0x04)) 154)
      (sample_device RATBAG_LED_OFF) 0 (sample_profile RATBAG_LED_OFF) sample_data
      rfl rfl (by decide)⟩

/-- C10: a successful read of a 154-byte report `bytes` followed, with no host edit in
between, by `sinowealth7_commit` hands the transport `bytes` with byte 0x60 replaced by
0xA2; the bytes written equal the bytes read exactly when `bytes[0x60] = 0xA2`, and a
report read with byte 0x60 = 0x02 (LED off) is written back with 0xA2. -/
theorem read_then_commit_forces_led_on (hid hid' : hid_transport)
    (device : ratbag_device) (p : ratbag_profile) (d : sinowealth7_data)
    (led : ratbag_led) (bytes : List Nat)
    (hp : device.profiles[0]? = some p) (hd : device.drv_data = some d)
    (hl : p.leds[0]? = some led)
    (hr : hid.get_feature_report 0x04 154 = .data bytes)
    (hlen : bytes.length = 154) :
    ∃ device' out, sinowealth7_read_profile hid device 0 = some (0, device') ∧
      sinowealth7_commit hid' device' = some out ∧
      out.request.bytes = bytes.set 0x60 0xA2 ∧
      (out.request.bytes = bytes ↔ bytes[0x60]? = some 0xA2) ∧
      (bytes[0x60]? = some 0x02 →
        out.request.bytes[0x60]? = some 0xA2 ∧ out.request.bytes ≠ bytes) := by
  have hpl : 0 < device.profiles.length := by
    by_contra hge
    rw [List.getElem?_eq_none (Nat.le_of_not_lt hge)] at hp
    exact absurd hp (by simp)
  have hll : 0 < p.leds.length := by
    by_contra hge
    rw [List.getElem?_eq_none (Nat.le_of_not_lt hge)] at hl
    exact absurd hl (by simp)
  have h60 : 0x60 < bytes.length := by rw [hlen]; decide
  have hread := read_profile_ok hid device 0 p d led bytes hp hd hl hr hlen
  obtain ⟨out, ho, -, -, -, d', hd', hb, hc, -⟩ := commit_unfold hid'
    { device with
      drv_data := some { config := sinowealth7_config_report.ofBytes bytes }
      profiles := device.profiles.set 0
        { p with
          leds := p.leds.set 0 { led with mode := RATBAG_LED_ON,
                                          brightness := bytes.getD 0x60 0 }
          rates := [1000]
          hz := 1000
          is_active := true } }
    { p with
      leds := p.leds.set 0 { led with mode := RATBAG_LED_ON,
                                      brightness := bytes.getD 0x60 0 }
      rates := [1000]
      hz := 1000
      is_active := true }
    { config := sinowealth7_config_report.ofBytes bytes }
    { led with mode := RATBAG_LED_ON, brightness := bytes.getD 0x60 0 }
    (List.getElem?_set_self hpl) rfl (List.getElem?_set_self hll)
  have hbytes : out.request.bytes = bytes.set 0x60 0xA2 := by
    rw [hb, hc]
    show (sinowealth7_config_report.ofBytes bytes).toBytes.set 0x60 0xa2 = _
    rw [sinowealth7_config_report.toBytes_ofBytes bytes hlen]
  refine ⟨_, out, hread, ho, hbytes, ?_, ?_⟩
  · rw [hbytes]
    exact set_eq_self_iff bytes 0x60 0xA2 h60
  · intro h2
    constructor
    · rw [hbytes]
      exact List.getElem?_set_self h60
    · rw [hbytes]
      intro e
      have := (set_eq_self_iff bytes 0x60 0xA2 h60).mp e
      rw [h2] at this
      exact absurd this (by decide)

/-- Witness for C10: a report read with byte 0x60 = 0x02 on a device whose LED was
off. -/
theorem read_then_commit_forces_led_on_witness :
    (sample_device RATBAG_LED_OFF).profiles[0]? = some (sample_profile RATBAG_LED_OFF) ∧
    (sample_device RATBAG_LED_OFF).drv_data = some sample_data ∧
    (sample_profile RATBAG_LED_OFF).leds[0]? = some (sample_led RATBAG_LED_OFF) ∧
    (sample_transport 0 (.data (sample_report 0x04 0x02)) 154).get_feature_report 0x04 154
      = .data (sample_report 0x04 0x02) ∧
    (sample_report 0x04 0x02).length = 154 ∧
    ∃ device' out,
      sinowealth7_read_profile (sample_transport 0 (.data (sample_report 0x04 0x02)) 154)
        (sample_device RATBAG_LED_OFF) 0 = some (0, device') ∧
      sinowealth7_commit (sample_transport 0 (.error 0) 154) device' = some out ∧
      out.request.bytes = (sample_report 0x04 0x02).set 0x60 0xA2 ∧
      (out.request.bytes = sample_report 0x04 0x02 ↔
        (sample_report 0x04 0x02)[0x60]? = some 0xA2) ∧
      ((sample_report 0x04 0x02)[0x60]? = some 0x02 →
        out.request.bytes[0x60]? = some 0xA2 ∧
        out.request.bytes ≠ sample_report 0x04 0x02) :=
  ⟨rfl, rfl, rfl, rfl, rfl,
    read_then_commit_forces_led_on
      (sample_transport 0 (.data (sample_report 0x04 0x02)) 154)
      (sample_transport 0 (.error 0) 154)
      (sample_device RATBAG_LED_OFF) (sample_profile RATBAG_LED_OFF) sample_data
      (sample_led RATBAG_LED_OFF) (sample_report 0x04 0x02) rfl rfl rfl rfl rfl⟩

/-! ## Init and probe -/

/-- C9: `sinowealth7_init_profile` always returns, leaving a device of the fixed shape
1 profile, 1 resolution slot, 0 buttons, 1 LED, and every resolution slot of the profile
carries the DPI list `[0, 1200]`, whatever the device held before. -/
theorem init_profile_fixed_shape (device : ratbag_device) :
    ∃ device' p, sinowealth7_init_profile device = some device' ∧
      device'.profiles = [p] ∧
      device'.num_profiles = 1 ∧
      device'.num_buttons = 0 ∧
      device'.num_leds = 1 ∧
      p.resolutions.length = 1 ∧
      p.buttons.length = 0 ∧
      p.leds.length = 1 ∧
      ∀ r ∈ p.resolutions, r.dpis = [0, 1200] := by
  refine ⟨_, initial_profile, init_profile_unfold device, rfl, rfl, rfl, rfl, rfl, rfl,
    rfl, ?_⟩
  intro r hr
  simp only [initial_profile, List.mem_singleton] at hr
  rw [hr]

/-- C4: `sinowealth7_probe` always returns; when it returns a non-zero code the device's
driver-data slot is null, which is what happens when `ratbag_find_hidraw` fails and when
the initial read returns a count other than 154; when it returns 0 the slot holds driver
state whose report is the 154 bytes read. -/
theorem probe_failure_detaches_state (hid : hid_transport) (device : ratbag_device) :
    ∃ rc device', sinowealth7_probe hid device = some (rc, device') ∧
      ((rc ≠ 0 ∧ device'.drv_data = none) ∨
       (rc = 0 ∧ ∃ bytes d', hid.get_feature_report 0x04 154 = .data bytes ∧
          bytes.length = 154 ∧ device'.drv_data = some d' ∧
          d'.config.toBytes = bytes)) ∧
      (ratbag_find_hidraw hid (sinowealth7_test_hidraw hid) ≠ 0 → rc ≠ 0) ∧
      ((hid.get_feature_report 0x04 154).count ≠ 154 → rc ≠ 0) := by
  by_cases hf : ratbag_find_hidraw hid (sinowealth7_test_hidraw hid) = 0
  · by_cases hc : (hid.get_feature_report SINOWEALTH7_REPORT_ID_CONFIG
        SINOWEALTH7_CONFIG_SIZE).count = (SINOWEALTH7_CONFIG_SIZE : Int)
    · obtain ⟨bytes, hr, hlen⟩ := (count_eq_size_iff _).mp hc
      refine ⟨_, _, probe_read_ok hid device bytes hf hr hlen, Or.inr ⟨rfl, bytes, _, hr,
        hlen, rfl, sinowealth7_config_report.toBytes_ofBytes bytes hlen⟩, ?_, ?_⟩
      · intro h; exact absurd hf h
      · intro h; exact absurd hc h
    · refine ⟨_, _, probe_read_fail hid device hf hc, Or.inl ⟨by decide, rfl⟩, ?_, ?_⟩
      · intro _; decide
      · intro _; decide
  · refine ⟨_, _, probe_no_hidraw hid device hf, Or.inl ⟨hf, rfl⟩, ?_, ?_⟩
    · intro h; exact h
    · intro _; exact hf

/-- C5 refuted as stated: a transport whose `ratbag_find_hidraw` fails with -22
(`-EINVAL`) makes `sinowealth7_probe` fail with -22, which is not `-ENODEV`. -/
theorem probe_find_error_not_enodev :
    ratbag_find_hidraw (sample_transport (-22) (.error 0) 154)
        (sinowealth7_test_hidraw (sample_transport (-22) (.error 0) 154)) ≠ 0 ∧
    (sinowealth7_probe (sample_transport (-22) (.error 0) 154) fresh_device).map Prod.fst
      = some (-22) ∧
    (-22 : Int) ≠ -ENODEV := by
  refine ⟨by decide, ?_, by decide⟩
  rw [probe_no_hidraw _ _ (by decide)]
  rfl

/-- C5 as amended: the code `sinowealth7_probe` returns is the code of
`ratbag_find_hidraw` itself when that is non-zero, `-ENODEV` when the search succeeded
and the initial read did not return 154 bytes, and 0 otherwise. -/
theorem probe_return_code (hid : hid_transport) (device : ratbag_device) :
    (sinowealth7_probe hid device).map Prod.fst =
      some (if ratbag_find_hidraw hid (sinowealth7_test_hidraw hid) ≠ 0 then
              ratbag_find_hidraw hid (sinowealth7_test_hidraw hid)
            else if (hid.get_feature_report 0x04 154).count ≠ 154 then -ENODEV
            else 0) := by
  by_cases hf : ratbag_find_hidraw hid (sinowealth7_test_hidraw hid) = 0
  · by_cases hc : (hid.get_feature_report 0x04 154).count = 154
    · obtain ⟨bytes, hr, hlen⟩ := (count_eq_size_iff _).mp hc
      rw [probe_read_ok hid device bytes hf hr hlen, if_neg (not_not.mpr hf),
        if_neg (not_not.mpr hc)]
      rfl
    · rw [probe_read_fail hid device hf hc, if_neg (not_not.mpr hf), if_pos hc]
      rfl
  · rw [probe_no_hidraw hid device hf, if_pos hf]
    rfl

/-- C6 refuted as stated: a 154-byte report whose first byte is 0x00, not 0x04, is
accepted: `sinowealth7_read_profile` returns 0 and publishes its byte 0x60 as the LED
brightness, and `sinowealth7_probe` returns 0. -/
theorem read_profile_ignores_report_id :
    (sample_report 0x00 0x55).length = 154 ∧
    (sample_report 0x00 0x55)[0]? = some 0x00 ∧
    (sinowealth7_read_profile (sample_transport 0 (.data (sample_report 0x00 0x55)) 154)
        (sample_device RATBAG_LED_OFF) 0).map Prod.fst = some 0 ∧
    ((sinowealth7_read_profile (sample_transport 0 (.data (sample_report 0x00 0x55)) 154)
        (sample_device RATBAG_LED_OFF) 0).bind
      (fun r => (r.2.profiles[0]?).bind
        (fun p => (ratbag_profile_get_led p 0).map (fun l => (l.mode, l.brightness)))))
      = some (RATBAG_LED_ON, 0x55) ∧
    (sinowealth7_probe (sample_transport 0 (.data (sample_report 0x00 0x55)) 154)
        fresh_device).map Prod.fst = some 0 := by
  refine ⟨rfl, by rw [sample_report, List.getElem?_cons_zero], ?_, ?_, ?_⟩
  · rw [read_profile_ok _ (sample_device RATBAG_LED_OFF) 0 (sample_profile RATBAG_LED_OFF)
      sample_data (sample_led RATBAG_LED_OFF) (sample_report 0x00 0x55) rfl rfl rfl rfl rfl]
    rfl
  · rw [read_profile_ok _ (sample_device RATBAG_LED_OFF) 0 (sample_profile RATBAG_LED_OFF)
      sample_data (sample_led RATBAG_LED_OFF) (sample_report 0x00 0x55) rfl rfl rfl rfl rfl]
    rfl
  · rw [probe_read_ok (sample_transport 0 (.data (sample_report 0x00 0x55)) 154)
      fresh_device (sample_report 0x00 0x55) rfl rfl rfl]
    rfl

/-- C6 as amended: a 154-byte report whose first byte is not 0x04 is accepted like any
other: `sinowealth7_read_profile` returns 0, keeps that first byte as `report_id`, sets
the LED's brightness to byte 0x60 and its mode to on, marks the profile active, and
`sinowealth7_probe` returns 0 once `ratbag_find_hidraw` has succeeded. -/
theorem read_profile_accepts_any_report_id (hid : hid_transport) (device : ratbag_device)
    (profile : Nat) (p : ratbag_profile) (d : sinowealth7_data) (led : ratbag_led)
    (bytes : List Nat)
    (hp : device.profiles[profile]? = some p) (hd : device.drv_data = some d)
    (hl : p.leds[0]? = some led)
    (hr : hid.get_feature_report 0x04 154 = .data bytes)
    (hlen : bytes.length = 154)
    (hid0 : bytes[0]? ≠ some 0x04) :
    (∃ device' p' led' d', sinowealth7_read_profile hid device profile = some (0, device') ∧
      device'.profiles[profile]? = some p' ∧
      ratbag_profile_get_led p' 0 = some led' ∧
      device'.drv_data = some d' ∧
      bytes[0]? = some d'.config.report_id ∧
      d'.config.report_id ≠ 0x04 ∧
      bytes[0x60]? = some led'.brightness ∧
      led'.mode = RATBAG_LED_ON ∧
      p'.is_active = true) ∧
    (ratbag_find_hidraw hid (sinowealth7_test_hidraw hid) = 0 →
      ∀ dev, (sinowealth7_probe hid dev).map Prod.fst = some 0) := by
  have hpl : profile < device.profiles.length := by
    by_contra hge
    rw [List.getElem?_eq_none (Nat.le_of_not_lt hge)] at hp
    exact absurd hp (by simp)
  have hll : 0 < p.leds.length := by
    by_contra hge
    rw [List.getElem?_eq_none (Nat.le_of_not_lt hge)] at hl
    exact absurd hl (by simp)
  have h0 : bytes[0]? = some (bytes.getD 0 0) :=
    getElem?_eq_some_getD bytes 0 (by rw [hlen]; decide)
  refine ⟨⟨_, _, _, _, read_profile_ok hid device profile p d led bytes hp hd hl hr hlen,
    List.getElem?_set_self hpl, List.getElem?_set_self hll, rfl, h0, ?_,
    getElem?_eq_some_getD bytes 0x60 (by rw [hlen]; decide), rfl, rfl⟩, ?_⟩
  · intro e
    apply hid0
    rw [h0]
    exact congrArg some e
  · intro hf dev
    rw [probe_read_ok hid dev bytes hf hr hlen]
    rfl

/-- Witness for C6 as amended: a 154-byte report whose first byte is 0x00. -/
theorem read_profile_accepts_any_report_id_witness :
    (sample_device RATBAG_LED_OFF).profiles[0]? = some (sample_profile RATBAG_LED_OFF) ∧
    (sample_device RATBAG_LED_OFF).drv_data = some sample_data ∧
    (sample_profile RATBAG_LED_OFF).leds[0]? = some (sample_led RATBAG_LED_OFF) ∧
    (sample_transport 0 (.data (sample_report 0x00 0x55)) 154).get_feature_report 0x04 154
      = .data (sample_report 0x00 0x55) ∧
    (sample_report 0x00 0x55).length = 154 ∧
    (sample_report 0x00 0x55)[0]? ≠ some 0x04 ∧
    ((∃ device' p' led' d',
      sinowealth7_read_profile (sample_transport 0 (.data (sample_report 0x00 0x55)) 154)
        (sample_device RATBAG_LED_OFF) 0 = some (0, device') ∧
      device'.profiles[0]? = some p' ∧
      ratbag_profile_get_led p' 0 = some led' ∧
      device'.drv_data = some d' ∧
      (sample_report 0x00 0x55)[0]? = some d'.config.report_id ∧
      d'.config.report_id ≠ 0x04 ∧
      (sample_report 0x00 0x55)[0x60]? = some led'.brightness ∧
      led'.mode = RATBAG_LED_ON ∧
      p'.is_active = true) ∧
    (ratbag_find_hidraw (sample_transport 0 (.data (sample_report 0x00 0x55)) 154)
        (sinowealth7_test_hidraw
          (sample_transport 0 (.data (sample_report 0x00 0x55)) 154)) = 0 →
      ∀ dev, (sinowealth7_probe (sample_transport 0 (.data (sample_report 0x00 0x55)) 154)
        dev).map Prod.fst = some 0)) :=
  ⟨rfl, rfl, rfl, rfl, rfl, by rw [sample_report, List.getElem?_cons_zero]; decide,
    read_profile_accepts_any_report_id
      (sample_transport 0 (.data (sample_report 0x00 0x55)) 154)
      (sample_device RATBAG_LED_OFF) 0 (sample_profile RATBAG_LED_OFF) sample_data
      (sample_led RATBAG_LED_OFF) (sample_report 0x00 0x55) rfl rfl rfl rfl rfl
      (by rw [sample_report, List.getElem?_cons_zero]; decide)⟩

end Sinowealth7
